import Mathlib

/-!
Shallow embedding of `src/gateway.py`, a FastAPI-based API gateway, together
with theorems settling the specification claims about it.

The gateway has three handlers:
* `root` (GET /) — not relevant to any claim, omitted;
* `health_check` (GET /health) — probes every configured service URL and
  reports a per-service status string;
* `gateway_proxy` (any of GET/POST/PUT/DELETE/PATCH on /{service}/{path:path})
  — looks the first path segment up in the static `SERVICES` table and builds
  an upstream request.  Crucially, the source calls
  `response = client.request(...)` WITHOUT `await`, so the Python value bound
  to `response` is a coroutine object, never an `httpx.Response`; accessing
  `response.text` then raises `AttributeError`, which the final
  `except Exception` clause turns into HTTP 500.

Network effects are modelled by a `BackendBehavior` oracle describing what the
awaited request WOULD have done; the embedding of the unawaited call ignores
it exactly as the source does, returning a coroutine value.
-/

namespace ApiGateway

/-- HTTP methods relevant to the gateway. -/
inductive Method
  | GET | POST | PUT | DELETE | PATCH | HEAD | OPTIONS
  deriving DecidableEq, Repr

/-- A JSON-like value, used for response bodies (what `response.json()` and
`JSONResponse(content=...)` traffic in). -/
inductive JVal
  | s (v : String)
  | n (v : Nat)
  | o (fields : List (String × JVal))

/-- Field lookup in a JSON object value; `none` on non-objects. -/
def JVal.field : JVal → String → Option JVal
  | .o fields, k => List.lookup k fields
  | .s _, _ => none
  | .n _, _ => none

/-- What one awaited `httpx` request against the backend would do: raise a
timeout, raise a connect error, or complete with a response carrying a status
code, a raw text body, an optional JSON parse of that body (`none` when the
body is not JSON-parseable), and headers. -/
inductive BackendBehavior
  | timeout
  | connectError
  | response (status : Nat) (text : String) (json : Option JVal)
      (headers : List (String × String))

/-- A Python runtime value that the name `response` in `gateway_proxy` can be
bound to: either the coroutine object produced by calling `client.request(...)`
without `await`, or an actual `httpx.Response`. -/
inductive PyValue
  | coroutine (pending : BackendBehavior)
  | httpxResponse (status : Nat) (text : String) (json : Option JVal)
      (headers : List (String × String))

/-- Python exceptions distinguished by the handler chain in `gateway_proxy`. -/
inductive PyExc
  | timeoutException   -- httpx.TimeoutException
  | connectError       -- httpx.ConnectError
  | attributeError     -- e.g. coroutine object has no attribute 'text'
  | jsonDecodeError    -- response.json() on a non-JSON body

/-- The static service table from the source:
`SERVICES = {"users": ..., "orders": ..., "products": ...}`. -/
def SERVICES : List (String × String) :=
  [("users", "http://localhost:8001"),
   ("orders", "http://localhost:8002"),
   ("products", "http://localhost:8003")]

/-- An inbound request as `gateway_proxy` sees it: the framework has already
split the URL path into the first segment (`service`) and the rest (`path`),
per the route pattern. -/
structure Req where
  method : Method
  service : String
  path : String
  query : String
  headers : List (String × String)
  body : String

/-- `target_url = f"{service_url}/{path}"`, then
`if request.url.query: target_url += f"?{request.url.query}"`
(a Python empty string is falsy). -/
def targetUrl (service_url path query : String) : String :=
  let base := service_url ++ "/" ++ path
  if query = "" then base else base ++ "?" ++ query

/-- Python `str.lower()` as applied to header names (ASCII characters),
implemented over the character list so it evaluates by kernel reduction. -/
def lowerAscii (s : String) : String :=
  String.mk (s.data.map Char.toLower)

/-- The header filter from the source:
`{k: v for k, v in request.headers.items() if k.lower() not in ["host", "connection"]}`. -/
def forwardedHeaders (headers : List (String × String)) : List (String × String) :=
  headers.filter (fun kv => !(lowerAscii kv.1 == "host") && !(lowerAscii kv.1 == "connection"))

/-- The keyword arguments passed to `client.request(...)`: they are evaluated
eagerly in Python even though the resulting coroutine is never awaited. -/
structure UpstreamCall where
  method : Method
  url : String
  headers : List (String × String)
  content : String

/-- The arguments `gateway_proxy` builds for `client.request`. -/
def upstreamCall (req : Req) (service_url : String) : UpstreamCall :=
  { method := req.method,
    url := targetUrl service_url req.path req.query,
    headers := forwardedHeaders req.headers,
    content := req.body }

/-- `client.request(...)` in the source has no `await` in front of it: calling
an `async def` only creates a coroutine object and performs no I/O, so no
`httpx` exception can arise here and the backend's behaviour is irrelevant. -/
def client_request (_call : UpstreamCall) (b : BackendBehavior) : PyValue :=
  PyValue.coroutine b

/-- The gateway's reply: either a raised `HTTPException` (rendered by FastAPI
as a JSON error with that status and detail) or a built `JSONResponse`. -/
inductive GatewayResult
  | httpError (status : Nat) (detail : String)
  | jsonResponse (status : Nat) (content : JVal) (headers : List (String × String))

/-- Status code of a gateway reply. -/
def GatewayResult.status : GatewayResult → Nat
  | .httpError s _ => s
  | .jsonResponse s _ _ => s

/-- Detail string of a raised `HTTPException`; empty for a `JSONResponse`. -/
def GatewayResult.detail : GatewayResult → String
  | .httpError _ d => d
  | .jsonResponse _ _ _ => ""

/-- Building
`JSONResponse(content=response.json() if response.text else {}, status_code=response.status_code, headers=dict(response.headers))`.
On a coroutine value the very first attribute access `response.text` raises
`AttributeError`.  On a real response, an empty text yields content `{}`, and
a non-JSON-parseable text makes `response.json()` raise. -/
def buildJSONResponse : PyValue → Except PyExc GatewayResult
  | .coroutine _ => .error .attributeError
  | .httpxResponse status text json headers =>
      if text = "" then .ok (.jsonResponse status (.o []) headers)
      else
        match json with
        | some v => .ok (.jsonResponse status v headers)
        | none => .error .jsonDecodeError

/-- The body of `gateway_proxy(service, path, request)`:
404 when the first segment is not a key of `SERVICES`; otherwise run the try
block (build the call arguments, call `client.request` without awaiting, build
the `JSONResponse`), with the source's three except clauses:
`httpx.TimeoutException` ↦ 504, `httpx.ConnectError` ↦ 503, and any other
`Exception` ↦ 500. -/
def gateway_proxy (req : Req) (b : BackendBehavior) : GatewayResult :=
  match SERVICES.lookup req.service with
  | none => .httpError 404 "Service not found"
  | some service_url =>
      match buildJSONResponse (client_request (upstreamCall req service_url) b) with
      | .ok r => r
      | .error .timeoutException => .httpError 504 "Gateway Timeout"
      | .error .connectError => .httpError 503 "Service Unavailable"
      | .error .attributeError => .httpError 500 "Internal Gateway Error"
      | .error .jsonDecodeError => .httpError 500 "Internal Gateway Error"

/-- The methods registered for the proxy route in the source:
`methods=["GET", "POST", "PUT", "DELETE", "PATCH"]`.  FastAPI's `APIRoute`
registers exactly this set (it does not add HEAD for GET). -/
def gatewayRouteMethods : List Method :=
  [.GET, .POST, .PUT, .DELETE, .PATCH]

/-- Framework dispatch for the proxy route: a request whose method is not in
the registered method list is answered 405 Method Not Allowed by the router
and never reaches `gateway_proxy`. -/
def dispatch (req : Req) (b : BackendBehavior) : GatewayResult :=
  if req.method ∈ gatewayRouteMethods then gateway_proxy req b
  else .httpError 405 "Method Not Allowed"

/-- Split a character list on every '/' (the semantics of splitting a URL path
into segments); the accumulator carries the current segment reversed. -/
def splitOnSlash : List Char → List Char → List (List Char)
  | [], acc => [acc.reverse]
  | c :: cs, acc =>
      if c = '/' then acc.reverse :: splitOnSlash cs []
      else splitOnSlash cs (c :: acc)

/-- Rejoin path segments with '/' separators. -/
def joinSlash : List (List Char) → List Char
  | [] => []
  | [x] => x
  | x :: y :: rest => x ++ '/' :: joinSlash (y :: rest)

/-- The framework's match of a full URL path against the route pattern
`/{service}/{path:path}` (regex `/([^/]+)/(.*)`): a leading slash, then a
non-empty slash-free first segment, then a second slash, then the rest. -/
def splitRoute (fullPath : String) : Option (String × String) :=
  match splitOnSlash fullPath.data [] with
  | [] :: service :: seg :: rest =>
      if service = [] then none
      else some (String.mk service, String.mk (joinSlash (seg :: rest)))
  | _ => none

/-- End-to-end route resolution as the code performs it: split the path per
the route pattern, then look the first segment up in the service table
(`if service not in SERVICES: 404`).  Returns the matched service name, its
URL, and the remaining path. -/
def resolve (services : List (String × String)) (fullPath : String) :
    Option (String × String × String) :=
  match splitRoute fullPath with
  | none => none
  | some (service, path) =>
      match services.lookup service with
      | none => none
      | some service_url => some (service, service_url, path)

/-- Outcome of one health probe `await client.get(f"{service_url}/health")`:
either it completed with some HTTP status (httpx raises no exception on 4xx
or 5xx statuses), or it raised (connect error, timeout, ...). -/
inductive ProbeOutcome
  | resp (status : Nat)
  | exc

/-- The status string `health_check` records for one service: "healthy"
whenever the probe did not raise, "unhealthy" on any exception. -/
def healthEntry : ProbeOutcome → String
  | .resp _ => "healthy"
  | .exc => "unhealthy"

/-- The body of `health_check()`: builds
`{"gateway": "healthy", "services": {name: "healthy" | "unhealthy", ...}}`,
probing `f"{service_url}/health"` for each entry of `SERVICES`.  The `probe`
oracle maps each probed URL to its outcome. -/
def health_check (probe : String → ProbeOutcome) : JVal :=
  .o [("gateway", .s "healthy"),
      ("services",
        .o (SERVICES.map (fun p => (p.1, .s (healthEntry (probe (p.2 ++ "/health")))))))]

/-- Does a JSON value look like the per-service record
`{healthyCount, totalCount}` that the claim about the aggregate health
endpoint describes? -/
def isCountRecord : JVal → Bool
  | .o fields =>
      (List.lookup "healthyCount" fields).isSome &&
      (List.lookup "totalCount" fields).isSome
  | .s _ => false
  | .n _ => false

/-! ## Theorems settling the claims -/

/-- Helper: the value recorded under a configured service's name in the
`services` object of `health_check` is the status string computed by
`healthEntry` from that service's probe outcome. -/
theorem health_services_entry (probe : String → ProbeOutcome) (name url : String)
    (h : (name, url) ∈ SERVICES) :
    (JVal.field (health_check probe) "services").bind (fun j => JVal.field j name) =
      some (JVal.s (healthEntry (probe (url ++ "/health")))) := by
  simp only [SERVICES, List.mem_cons, List.not_mem_nil, or_false,
    Prod.mk.injEq] at h
  rcases h with ⟨rfl, rfl⟩ | ⟨rfl, rfl⟩ | ⟨rfl, rfl⟩ <;> rfl

/-- C1: for every inbound request whose first path segment names a registered
service, `gateway_proxy` answers HTTP 500 regardless of the backend's
behaviour: the `client.request` call is never awaited, so the bound value is a
coroutine whose attribute access raises, and the generic exception handler
fires. -/
theorem c1_proxy_always_500 (req : Req) (b : BackendBehavior)
    (h : (SERVICES.lookup req.service).isSome = true) :
    gateway_proxy req b = .httpError 500 "Internal Gateway Error" := by
  rcases h' : SERVICES.lookup req.service with _ | service_url
  · rw [h'] at h; simp at h
  · unfold gateway_proxy
    rw [h']
    rfl

/-- Witness for C1 at a concrete registered service and a backend that would
have answered successfully had the request been awaited. -/
theorem c1_proxy_always_500_witness :
    gateway_proxy ⟨Method.GET, "users", "42", "", [], ""⟩
        (BackendBehavior.response 200 "ok" (some (JVal.o [])) []) =
      .httpError 500 "Internal Gateway Error" :=
  c1_proxy_always_500 ⟨Method.GET, "users", "42", "", [], ""⟩
    (BackendBehavior.response 200 "ok" (some (JVal.o [])) []) (by decide)

/-- C2 counterexample: the claimed failure-to-status mapping is false on the
code.  At the concrete request GET /users/42, an upstream connect failure does
not yield 503, an attempt timeout does not yield 504, and a malformed
(non-JSON) upstream response does not yield 502: all three yield 500, because
the request coroutine is never awaited (so the 503/504 handlers cannot fire)
and a JSON decode failure would fall to the generic 500 handler anyway. -/
theorem c2_mapping_counterexample :
    ((gateway_proxy ⟨Method.GET, "users", "42", "", [], ""⟩
        BackendBehavior.connectError).status = 500 ∧
      (gateway_proxy ⟨Method.GET, "users", "42", "", [], ""⟩
        BackendBehavior.connectError).status ≠ 503) ∧
    ((gateway_proxy ⟨Method.GET, "users", "42", "", [], ""⟩
        BackendBehavior.timeout).status = 500 ∧
      (gateway_proxy ⟨Method.GET, "users", "42", "", [], ""⟩
        BackendBehavior.timeout).status ≠ 504) ∧
    ((gateway_proxy ⟨Method.GET, "users", "42", "", [], ""⟩
        (BackendBehavior.response 200 "not json" none [])).status = 500 ∧
      (gateway_proxy ⟨Method.GET, "users", "42", "", [], ""⟩
        (BackendBehavior.response 200 "not json" none [])).status ≠ 502) := by
  refine ⟨⟨rfl, by decide⟩, ⟨rfl, by decide⟩, ⟨rfl, by decide⟩⟩

/-- C2 amended: a path naming no registered service yields 404; every other
inbound proxy request yields 500 whatever the upstream would have done
(connect failure, timeout, malformed response, or success alike). -/
theorem c2_actual_status_mapping :
    (∀ (req : Req) (b : BackendBehavior), SERVICES.lookup req.service = none →
      gateway_proxy req b = .httpError 404 "Service not found") ∧
    (∀ (req : Req) (b : BackendBehavior), (SERVICES.lookup req.service).isSome = true →
      gateway_proxy req b = .httpError 500 "Internal Gateway Error") := by
  constructor
  · intro req b h
    unfold gateway_proxy
    rw [h]
  · intro req b h
    rcases h' : SERVICES.lookup req.service with _ | service_url
    · rw [h'] at h; simp at h
    · unfold gateway_proxy
      rw [h']
      rfl

/-- Witness for C2 (amended): both branches at concrete requests. -/
theorem c2_actual_status_mapping_witness :
    gateway_proxy ⟨Method.GET, "nosuch", "42", "", [], ""⟩ BackendBehavior.timeout =
        .httpError 404 "Service not found" ∧
    gateway_proxy ⟨Method.GET, "orders", "42", "", [], ""⟩ BackendBehavior.timeout =
        .httpError 500 "Internal Gateway Error" :=
  ⟨(c2_actual_status_mapping).1 ⟨Method.GET, "nosuch", "42", "", [], ""⟩
      BackendBehavior.timeout (by decide),
    (c2_actual_status_mapping).2 ⟨Method.GET, "orders", "42", "", [], ""⟩
      BackendBehavior.timeout (by decide)⟩

/-- C3 counterexample: route resolution is not longest-prefix match.  With a
table carrying both a "users" entry and a (never-matchable) "users/admin"
entry, the path /users/admin/42 resolves to the "users" service with remaining
path "admin/42" — not to the users-admin service with path "/42" as the claim
states. -/
theorem c3_longest_prefix_counterexample :
    resolve [("users", "users-svc"), ("users/admin", "users-admin-svc")]
        "/users/admin/42" = some ("users", "users-svc", "admin/42") ∧
    resolve [("users", "users-svc"), ("users/admin", "users-admin-svc")]
        "/users/admin/42" ≠ some ("users/admin", "users-admin-svc", "/42") := by
  constructor
  · rfl
  · decide

/-- C3 amended: route resolution is an exact match of the first path segment
against the registered service names, with everything after the second slash
as the rewritten path; no longest-prefix matching takes place.  Whenever
`resolve` succeeds, the matched name was obtained by the route-pattern split
and mapped by plain table lookup. -/
theorem c3_exact_segment_match (services : List (String × String))
    (fullPath service service_url path : String)
    (h : resolve services fullPath = some (service, service_url, path)) :
    services.lookup service = some service_url ∧
    splitRoute fullPath = some (service, path) := by
  unfold resolve at h
  split at h
  · exact absurd h (by simp)
  · rename_i service' path' heq
    split at h
    · exact absurd h (by simp)
    · rename_i url' heq2
      obtain ⟨rfl, rfl, rfl⟩ : service' = service ∧ url' = service_url ∧ path' = path := by
        simpa using h
      exact ⟨heq2, heq⟩

/-- Witness for C3 (amended) at the scenario path. -/
theorem c3_exact_segment_match_witness :
    ([("users", "users-svc"), ("users/admin", "users-admin-svc")] :
        List (String × String)).lookup "users" = some "users-svc" ∧
    splitRoute "/users/admin/42" = some ("users", "admin/42") :=
  c3_exact_segment_match [("users", "users-svc"), ("users/admin", "users-admin-svc")]
    "/users/admin/42" "users" "users-svc" "admin/42" (by decide)

/-- C4 counterexample: the hop-by-hop headers other than Host and Connection
are NOT stripped.  A request carrying Keep-Alive, TE, Trailer and Upgrade
headers has all of them forwarded verbatim to the upstream call. -/
theorem c4_hop_by_hop_counterexample :
    forwardedHeaders
        [("Keep-Alive", "timeout=5"), ("TE", "trailers"),
         ("Trailer", "Expires"), ("Upgrade", "h2c")] =
      [("Keep-Alive", "timeout=5"), ("TE", "trailers"),
       ("Trailer", "Expires"), ("Upgrade", "h2c")] := by
  decide

/-- C4 amended: the headers of the upstream call are exactly the request
headers with Host and Connection (case-insensitively) removed; every other
header — including the remaining hop-by-hop headers — is passed through
verbatim. -/
theorem c4_headers_forwarded (req : Req) (service_url k v : String) :
    (k, v) ∈ (upstreamCall req service_url).headers ↔
      ((k, v) ∈ req.headers ∧ lowerAscii k ≠ "host" ∧ lowerAscii k ≠ "connection") := by
  simp [upstreamCall, forwardedHeaders, List.mem_filter]

/-- C5: the URL of the upstream call is the prefix-rewritten URL with the
original query string appended unchanged. -/
theorem c5_query_preserved (req : Req) (service_url : String)
    (h : req.query ≠ "") :
    (upstreamCall req service_url).url =
      (upstreamCall { req with query := "" } service_url).url ++ "?" ++ req.query := by
  simp [upstreamCall, targetUrl, h]

/-- Witness for C5 at a concrete request with query string a=1&b=2. -/
theorem c5_query_preserved_witness :
    (upstreamCall ⟨Method.GET, "users", "42", "a=1&b=2", [], ""⟩
        "http://localhost:8001").url =
      (upstreamCall ⟨Method.GET, "users", "42", "", [], ""⟩
        "http://localhost:8001").url ++ "?" ++ "a=1&b=2" :=
  c5_query_preserved ⟨Method.GET, "users", "42", "a=1&b=2", [], ""⟩
    "http://localhost:8001" (by decide)

/-- C6: evaluating the code at the failing input.  A POST to the registered
service "users" whose forwarding attempt would time out is indeed not retried
and yields exactly one response — but its status is 500, not the claimed 504:
the `except httpx.TimeoutException` handler that maps timeouts to 504 is dead
code because the request coroutine is never awaited, so no timeout exception
is ever raised and the generic handler answers instead. -/
theorem c6_post_timeout_yields_500 :
    gateway_proxy ⟨Method.POST, "users", "orders/1", "", [], "payload"⟩
        BackendBehavior.timeout = .httpError 500 "Internal Gateway Error" ∧
    (gateway_proxy ⟨Method.POST, "users", "orders/1", "", [], "payload"⟩
        BackendBehavior.timeout).status ≠ 504 := by
  constructor
  · rfl
  · decide

/-- C7 counterexample: a GET whose endpoint is unreachable is not retried on a
different endpoint and does not succeed — the caller gets the 500 error, and
the service table maps each service to exactly one endpoint URL, so no
alternative endpoint even exists. -/
theorem c7_get_retry_counterexample :
    gateway_proxy ⟨Method.GET, "users", "42", "", [], ""⟩
        BackendBehavior.connectError = .httpError 500 "Internal Gateway Error" ∧
    SERVICES.lookup "users" = some "http://localhost:8001" := by
  constructor
  · rfl
  · rfl

/-- C7 amended: a GET request whose (single) endpoint is unreachable is not
retried — each service has exactly one configured URL and the code makes one
attempt — and the caller receives exactly one response, the error produced by
the exception handler (500 as the code stands, since the unawaited call lets
no connect error surface). -/
theorem c7_get_unreachable_single_error (req : Req)
    (_hm : req.method = Method.GET)
    (h : (SERVICES.lookup req.service).isSome = true) :
    gateway_proxy req BackendBehavior.connectError =
      .httpError 500 "Internal Gateway Error" := by
  rcases h' : SERVICES.lookup req.service with _ | service_url
  · rw [h'] at h; simp at h
  · unfold gateway_proxy
    rw [h']
    rfl

/-- Witness for C7 (amended) at a concrete GET request. -/
theorem c7_get_unreachable_single_error_witness :
    gateway_proxy ⟨Method.GET, "products", "7", "", [], ""⟩
        BackendBehavior.connectError = .httpError 500 "Internal Gateway Error" :=
  c7_get_unreachable_single_error ⟨Method.GET, "products", "7", "", [], ""⟩
    rfl (by decide)

/-- C8 counterexample: the aggregate health endpoint's output has no
`gatewayStatus` field (the field is called `gateway`), and the per-service
value is the bare string "healthy", not a `{healthyCount, totalCount}`
record. -/
theorem c8_shape_counterexample :
    JVal.field (health_check (fun _ => ProbeOutcome.resp 200)) "gatewayStatus" =
        none ∧
    (JVal.field (health_check (fun _ => ProbeOutcome.resp 200)) "services").bind
        (fun j => JVal.field j "users") = some (JVal.s "healthy") ∧
    isCountRecord (JVal.s "healthy") = false := by
  refine ⟨rfl, rfl, rfl⟩

/-- C8 amended: the aggregate health endpoint returns a `gateway` field equal
to "healthy" and a `services` object mapping each configured service name to
the status string "healthy" or "unhealthy" according to its probe outcome —
status strings, not `{healthyCount, totalCount}` records, and no
`gatewayStatus` field. -/
theorem c8_health_shape (probe : String → ProbeOutcome) (name url : String)
    (h : (name, url) ∈ SERVICES) :
    JVal.field (health_check probe) "gateway" = some (JVal.s "healthy") ∧
    (JVal.field (health_check probe) "services").bind (fun j => JVal.field j name) =
      some (JVal.s (healthEntry (probe (url ++ "/health")))) :=
  ⟨rfl, health_services_entry probe name url h⟩

/-- Witness for C8 (amended) at the "users" service with a failing probe. -/
theorem c8_health_shape_witness :
    JVal.field (health_check (fun _ => ProbeOutcome.exc)) "gateway" =
        some (JVal.s "healthy") ∧
    (JVal.field (health_check (fun _ => ProbeOutcome.exc)) "services").bind
        (fun j => JVal.field j "users") =
      some (JVal.s (healthEntry ((fun _ => ProbeOutcome.exc)
        ("http://localhost:8001" ++ "/health")))) :=
  c8_health_shape (fun _ => ProbeOutcome.exc) "users" "http://localhost:8001"
    (by decide)

/-- C9 counterexample: a HEAD request is not routed through the proxy pipeline
— HEAD and OPTIONS are absent from the route's registered method list, so the
router rejects such requests with 405 Method Not Allowed. -/
theorem c9_method_counterexample :
    dispatch ⟨Method.HEAD, "users", "42", "", [], ""⟩ BackendBehavior.timeout =
        .httpError 405 "Method Not Allowed" ∧
    ¬ (Method.HEAD ∈ gatewayRouteMethods ∨ Method.OPTIONS ∈ gatewayRouteMethods) := by
  constructor
  · rfl
  · decide

/-- C9 amended: the proxy route accepts exactly GET, POST, PUT, DELETE and
PATCH on any path — those are routed to `gateway_proxy` — while HEAD and
OPTIONS requests are rejected with 405 and never reach the proxy pipeline. -/
theorem c9_accepted_methods (req : Req) (b : BackendBehavior) :
    (req.method ∈ gatewayRouteMethods → dispatch req b = gateway_proxy req b) ∧
    (req.method = Method.HEAD ∨ req.method = Method.OPTIONS →
      dispatch req b = .httpError 405 "Method Not Allowed") := by
  constructor
  · intro h
    simp [dispatch, h]
  · rintro (h | h) <;> simp [dispatch, h, gatewayRouteMethods]

/-- Witness for C9 (amended): a GET is proxied, an OPTIONS is rejected. -/
theorem c9_accepted_methods_witness :
    dispatch ⟨Method.GET, "users", "1", "", [], ""⟩ BackendBehavior.timeout =
        gateway_proxy ⟨Method.GET, "users", "1", "", [], ""⟩ BackendBehavior.timeout ∧
    dispatch ⟨Method.OPTIONS, "users", "1", "", [], ""⟩ BackendBehavior.timeout =
        .httpError 405 "Method Not Allowed" :=
  ⟨(c9_accepted_methods ⟨Method.GET, "users", "1", "", [], ""⟩
      BackendBehavior.timeout).1 (by decide),
    (c9_accepted_methods ⟨Method.OPTIONS, "users", "1", "", [], ""⟩
      BackendBehavior.timeout).2 (Or.inr rfl)⟩

/-- C10: `health_check` reports a service "healthy" whenever the probe request
completed without raising, whatever the probe response's status code — in
particular a backend answering its health path with any status, 500 included,
is still reported healthy. -/
theorem c10_healthy_ignores_status (probe : String → ProbeOutcome)
    (name url : String) (status : Nat)
    (hmem : (name, url) ∈ SERVICES)
    (hprobe : probe (url ++ "/health") = ProbeOutcome.resp status) :
    (JVal.field (health_check probe) "services").bind (fun j => JVal.field j name) =
      some (JVal.s "healthy") := by
  rw [health_services_entry probe name url hmem, hprobe]
  rfl

/-- Witness for C10: a backend answering its health probe with status 500 is
reported "healthy". -/
theorem c10_healthy_ignores_status_witness :
    (JVal.field (health_check (fun _ => ProbeOutcome.resp 500)) "services").bind
        (fun j => JVal.field j "users") = some (JVal.s "healthy") :=
  c10_healthy_ignores_status (fun _ => ProbeOutcome.resp 500) "users"
    "http://localhost:8001" 500 (by decide) rfl

end ApiGateway
